import Mathlib

/-!
Verification of `src/python/cudf/cudf/core/_compat.py`.

The module under verification reads, in order:

    PANDAS_CURRENT_SUPPORTED_VERSION = version.parse("2.2.3")
    PANDAS_VERSION = version.parse(pd.__version__)

    PANDAS_GE_210 = PANDAS_VERSION >= version.parse("2.1.0")
    PANDAS_GE_220 = PANDAS_VERSION >= version.parse("2.2.0")
    PANDAS_LT_300 = PANDAS_VERSION < version.parse("3.0.0")

`version.parse` is `packaging.version.parse` (PEP 440).  We embed that
facility faithfully: the data model is `packaging.version.Version`'s
parsed `_Version` tuple, parsing follows packaging's `VERSION_PATTERN`
regular expression (case-insensitive, surrounding whitespace allowed,
optional `v` prefix), and ordering follows packaging's `_cmpkey`.
Parsing is total over `Option`: `none` models `InvalidVersion` being
raised.  The whole module body is then a function of the installed
version string `pd.__version__`, returning `none` when parsing raised.
-/

/-- Pre-release letter after normalisation by packaging's
`_parse_letter_version`: `alpha` becomes `a`, `beta` becomes `b`, and
`c`, `pre`, `preview` become `rc`.  Packaging compares the normalised
letters as strings, where `"a" < "b" < "rc"`. -/
inductive PreLetter where
  | a : PreLetter
  | b : PreLetter
  | rc : PreLetter
deriving DecidableEq

/-- String rank of the normalised letter: `"a" < "b" < "rc"`. -/
def PreLetter.rank : PreLetter → Nat
  | .a => 0
  | .b => 1
  | .rc => 2

/-- One segment of a PEP 440 local version: packaging keeps
`int(part)` when `part.isdigit()` and the lower-cased string otherwise. -/
abbrev LocalSegment := Sum Nat String

/-- The parsed version, mirroring packaging's `_Version` named tuple
(`epoch`, `release`, `dev`, `pre`, `post`, `local`).  `pre` holds the
normalised letter and its number, `post` and `dev` hold their numbers
(the letters are always `"post"` and `"dev"` after normalisation). -/
structure PEP440Version where
  epoch : Nat
  release : List Nat
  pre : Option (PreLetter × Nat)
  post : Option Nat
  dev : Option Nat
  localVer : Option (List LocalSegment)
deriving DecidableEq

/-! ### The comparison key (packaging's `_cmpkey`)

Packaging compares versions by a tuple
`(epoch, release-without-trailing-zeros, pre, post, dev, local)` in
which `Infinity` / `NegativeInfinity` sentinels and letter strings
occur.  We encode each component into a lexicographically ordered
type built from `Nat`, `List Nat` and `Lex` products, with explicit
tags replacing the sentinels. -/

/-- A `Lex` pair of naturals. -/
abbrev NatPairKey := Lex (Nat × Nat)

/-- Encoded pre-release key: tag `0` is `NegativeInfinity` (a dev
release with no pre and no post segment), tag `1` carries an actual
`(letter, number)` pre-release, tag `2` is `Infinity` (a final
release). -/
abbrev PreKey := Lex (Nat × NatPairKey)

/-- Encoded local segment: packaging maps an integer segment `i` to
`(i, "")` and a string segment `s` to `(NegativeInfinity, s)`, so
integer segments sort above string segments.  Tag `1` marks an
integer, tag `0` a string (compared by its character codes). -/
abbrev LocalSegKey := Lex (Nat × Lex (Nat × List Nat))

/-- Encoded local key: tag `0` is `NegativeInfinity` (no local
segment), tag `1` carries the encoded segments. -/
abbrev LocalKey := Lex (Nat × List LocalSegKey)

/-- The full comparison key:
`(epoch, release, pre, post, dev, local)` ordered lexicographically. -/
abbrev VKey :=
  Lex (Nat × Lex (List Nat × Lex (PreKey × Lex (NatPairKey × Lex (NatPairKey × LocalKey)))))

/-- Remove trailing zeros from the release tuple, as packaging does
with `dropwhile` over the reversed release. -/
def dropTrailingZeros (l : List Nat) : List Nat :=
  ((l.reverse.dropWhile fun n => n == 0)).reverse

/-- Pre-release component of the key.  Packaging: if `pre`, `post`
are `None` and `dev` is not, use `NegativeInfinity`; else if `pre` is
`None`, use `Infinity`; else the `(letter, number)` pair itself. -/
def preKey (pre : Option (PreLetter × Nat)) (post : Option Nat) (dev : Option Nat) :
    PreKey :=
  match pre with
  | some (l, n) => toLex (1, toLex (l.rank, n))
  | none =>
      match post, dev with
      | none, some _ => toLex (0, toLex (0, 0))
      | _, _ => toLex (2, toLex (0, 0))

/-- Post component of the key: `NegativeInfinity` when absent (tag
`0`), otherwise the post number (tag `1`). -/
def postKey : Option Nat → NatPairKey
  | none => toLex (0, 0)
  | some n => toLex (1, n)

/-- Dev component of the key: `Infinity` when absent (tag `1`),
otherwise the dev number (tag `0`). -/
def devKey : Option Nat → NatPairKey
  | none => toLex (1, 0)
  | some n => toLex (0, n)

/-- Encode one local segment (see `LocalSegKey`). -/
def localSegKey : LocalSegment → LocalSegKey
  | .inl n => toLex (1, toLex (n, []))
  | .inr s => toLex (0, toLex (0, s.data.map Char.toNat))

/-- Local component of the key: `NegativeInfinity` when absent (tag
`0`), otherwise the encoded segments (tag `1`). -/
def localKey : Option (List LocalSegment) → LocalKey
  | none => toLex (0, [])
  | some segs => toLex (1, segs.map localSegKey)

/-- Packaging's `_cmpkey` for a parsed version. -/
def PEP440Version.cmpKey (v : PEP440Version) : VKey :=
  toLex (v.epoch, toLex (dropTrailingZeros v.release,
    toLex (preKey v.pre v.post v.dev,
      toLex (postKey v.post, toLex (devKey v.dev, localKey v.localVer)))))

/-- `a <= b` on versions: packaging's total order via the comparison
key. -/
def vle (a b : PEP440Version) : Prop := a.cmpKey ≤ b.cmpKey

/-- `a < b` on versions: packaging's total order via the comparison
key. -/
def vlt (a b : PEP440Version) : Prop := a.cmpKey < b.cmpKey

instance (a b : PEP440Version) : Decidable (vle a b) :=
  inferInstanceAs (Decidable (a.cmpKey ≤ b.cmpKey))

instance (a b : PEP440Version) : Decidable (vlt a b) :=
  inferInstanceAs (Decidable (a.cmpKey < b.cmpKey))

/-- The version order is transitive (it is the pullback of a linear
order along `cmpKey`). -/
theorem vle_trans {a b c : PEP440Version} (h₁ : vle a b) (h₂ : vle b c) : vle a c :=
  le_trans h₁ h₂

/-! ### Parsing (packaging's `VERSION_PATTERN` regular expression)

The pattern (compiled with `re.VERBOSE | re.IGNORECASE` and anchored
as `^\s* ... \s*$`):

    v?
    (?:
        (?:(?P<epoch>[0-9]+)!)?
        (?P<release>[0-9]+(?:\.[0-9]+)*)
        (?P<pre>[-_\.]?(?P<pre_l>alpha|a|beta|b|preview|pre|c|rc)
                [-_\.]?(?P<pre_n>[0-9]+)?)?
        (?P<post>(?:-(?P<post_n1>[0-9]+))
                 |(?:[-_\.]?(?P<post_l>post|rev|r)[-_\.]?(?P<post_n2>[0-9]+)?))?
        (?P<dev>[-_\.]?(?P<dev_l>dev)[-_\.]?(?P<dev_n>[0-9]+)?)?
    )
    (?:\+(?P<local>[a-z0-9]+(?:[-_\.][a-z0-9]+)*))?

`re.IGNORECASE` is modelled by lower-casing the input first, the
anchors by trimming surrounding whitespace and requiring the parser
to consume the whole remainder.  Each optional group is parsed
greedily; where the regex engine's backtracking matters only for
whether the match exists (never for which captures a successful match
produces), greedy parsing agrees with it, and the alternations for
the pre/post letters are tried longest-first, which matches what
backtracking converges to. -/

/-- Numeric value of a decimal digit character. -/
def digitVal (c : Char) : Nat := c.toNat - '0'.toNat

/-- Split off the leading run of decimal digits. -/
def takeDigits : List Char → List Char × List Char
  | [] => ([], [])
  | c :: cs =>
      if c.isDigit then
        let (ds, rest) := takeDigits cs
        (c :: ds, rest)
      else ([], c :: cs)

/-- Value of a digit string (the regex guarantees it is nonempty). -/
def digitsToNat (ds : List Char) : Nat :=
  ds.foldl (fun acc c => acc * 10 + digitVal c) 0

/-- Parse `[0-9]+`: fails when no digit is present. -/
def parseNum (cs : List Char) : Option (Nat × List Char) :=
  match takeDigits cs with
  | ([], _) => none
  | (ds, rest) => some (digitsToNat ds, rest)

/-- A separator character, `[-_\.]`. -/
def isSep (c : Char) : Bool := c == '-' || c == '_' || c == '.'

/-- Consume one optional separator, `[-_\.]?`. -/
def skipSep : List Char → List Char
  | [] => []
  | c :: cs => if isSep c then cs else c :: cs

/-- Consume an exact literal, or fail. -/
def dropLit : List Char → List Char → Option (List Char)
  | [], cs => some cs
  | _ :: _, [] => none
  | p :: ps, c :: cs => if c == p then dropLit ps cs else none

/-- `(?:\.[0-9]+)*`, the tail of the release segment.  A dot is
consumed only when digits follow it, exactly as the regex requires.
The fuel argument (instantiated with the input length) bounds the
iteration. -/
def parseMoreRelease : Nat → List Char → List Nat × List Char
  | 0, cs => ([], cs)
  | fuel + 1, cs =>
      match cs with
      | '.' :: rest =>
          match parseNum rest with
          | some (n, rest2) =>
              let (ns, rest3) := parseMoreRelease fuel rest2
              (n :: ns, rest3)
          | none => ([], cs)
      | _ => ([], cs)

/-- `(?:(?P<epoch>[0-9]+)!)?`: digits count as the epoch only when
followed by `!`; otherwise nothing is consumed and the epoch defaults
to 0, as in packaging's `int(match.group("epoch")) if ... else 0`. -/
def parseEpoch (cs : List Char) : Nat × List Char :=
  match parseNum cs with
  | some (n, '!' :: rest) => (n, rest)
  | _ => (0, cs)

/-- Match one pre-release letter alternative (longest first) and
normalise it as packaging's `_parse_letter_version` does:
`alpha` to `a`, `beta` to `b`, `c`/`pre`/`preview` to `rc`. -/
def matchPreLetter (cs : List Char) : Option (PreLetter × List Char) :=
  match dropLit ['p','r','e','v','i','e','w'] cs with
  | some rest => some (.rc, rest)
  | none =>
  match dropLit ['a','l','p','h','a'] cs with
  | some rest => some (.a, rest)
  | none =>
  match dropLit ['b','e','t','a'] cs with
  | some rest => some (.b, rest)
  | none =>
  match dropLit ['p','r','e'] cs with
  | some rest => some (.rc, rest)
  | none =>
  match dropLit ['r','c'] cs with
  | some rest => some (.rc, rest)
  | none =>
  match cs with
  | 'a' :: rest => some (.a, rest)
  | 'b' :: rest => some (.b, rest)
  | 'c' :: rest => some (.rc, rest)
  | _ => none

/-- The `pre` group: optional separator, a letter alternative,
optional separator, optional number (defaulting to 0).  Failure
consumes nothing. -/
def parsePre (cs : List Char) : Option ((PreLetter × Nat) × List Char) :=
  match matchPreLetter (skipSep cs) with
  | none => none
  | some (l, rest) =>
      let rest1 := skipSep rest
      match parseNum rest1 with
      | some (n, rest2) => some ((l, n), rest2)
      | none => some ((l, 0), rest1)

/-- Match one post-release letter alternative (`post`, `rev`, `r`,
longest first); packaging normalises all of them to `"post"`. -/
def matchPostWord (cs : List Char) : Option (List Char) :=
  match dropLit ['p','o','s','t'] cs with
  | some rest => some rest
  | none =>
  match dropLit ['r','e','v'] cs with
  | some rest => some rest
  | none =>
  match cs with
  | 'r' :: rest => some rest
  | _ => none

/-- The word form of the `post` group: optional separator, a letter
alternative, optional separator, optional number (defaulting to 0). -/
def parsePostWord (cs : List Char) : Option (Nat × List Char) :=
  match matchPostWord (skipSep cs) with
  | none => none
  | some rest =>
      let rest1 := skipSep rest
      match parseNum rest1 with
      | some (n, rest2) => some (n, rest2)
      | none => some (0, rest1)

/-- The `post` group: either `-[0-9]+` (the implicit post form) or
the word form. -/
def parsePost (cs : List Char) : Option (Nat × List Char) :=
  match cs with
  | '-' :: rest =>
      match parseNum rest with
      | some (n, rest2) => some (n, rest2)
      | none => parsePostWord cs
  | _ => parsePostWord cs

/-- The `dev` group: optional separator, the literal `dev`, optional
separator, optional number (defaulting to 0). -/
def parseDev (cs : List Char) : Option (Nat × List Char) :=
  match dropLit ['d','e','v'] (skipSep cs) with
  | none => none
  | some rest =>
      let rest1 := skipSep rest
      match parseNum rest1 with
      | some (n, rest2) => some (n, rest2)
      | none => some (0, rest1)

/-- A local-version character, `[a-z0-9]` (the input is already
lower-cased). -/
def isLocalChar (c : Char) : Bool := c.isDigit || ('a' ≤ c && c ≤ 'z')

/-- Split off the leading run of local-version characters. -/
def takeLocalChars : List Char → List Char × List Char
  | [] => ([], [])
  | c :: cs =>
      if isLocalChar c then
        let (ds, rest) := takeLocalChars cs
        (c :: ds, rest)
      else ([], c :: cs)

/-- One local segment, `[a-z0-9]+`: packaging's
`_parse_local_version` keeps `int(part)` when `part.isdigit()` and
the string otherwise. -/
def parseLocalSeg (cs : List Char) : Option (LocalSegment × List Char) :=
  match takeLocalChars cs with
  | ([], _) => none
  | (ds, rest) =>
      if ds.all Char.isDigit then some (.inl (digitsToNat ds), rest)
      else some (.inr (String.mk ds), rest)

/-- `(?:[-_\.][a-z0-9]+)*`: further local segments, each preceded by
a separator that is consumed only when a segment follows. -/
def parseLocalMore : Nat → List Char → List LocalSegment × List Char
  | 0, cs => ([], cs)
  | fuel + 1, cs =>
      match cs with
      | c :: rest =>
          if isSep c then
            match parseLocalSeg rest with
            | some (seg, rest2) =>
                let (segs, rest3) := parseLocalMore fuel rest2
                (seg :: segs, rest3)
            | none => ([], cs)
          else ([], cs)
      | [] => ([], [])

/-- The `local` group: `\+` followed by at least one segment. -/
def parseLocal (cs : List Char) : Option (List LocalSegment × List Char) :=
  match cs with
  | '+' :: rest =>
      match parseLocalSeg rest with
      | none => none
      | some (seg, rest2) =>
          let (segs, rest3) := parseLocalMore rest2.length rest2
          some (seg :: segs, rest3)
  | _ => none

/-- Strip surrounding whitespace (the `^\s*` and `\s*$` anchors). -/
def trimWs (cs : List Char) : List Char :=
  ((cs.dropWhile Char.isWhitespace).reverse.dropWhile Char.isWhitespace).reverse

/-- Parse the body after case folding, trimming and the optional `v`
prefix: epoch, release, pre, post, dev, local, then end of input. -/
def parseBody (cs : List Char) : Option PEP440Version :=
  let (epoch, cs2) := parseEpoch cs
  match parseNum cs2 with
  | none => none
  | some (r0, cs3) =>
      let (rs, cs4) := parseMoreRelease cs3.length cs3
      let (pre, cs5) :=
        match parsePre cs4 with
        | some (p, r) => (some p, r)
        | none => (none, cs4)
      let (post, cs6) :=
        match parsePost cs5 with
        | some (p, r) => (some p, r)
        | none => (none, cs5)
      let (dev, cs7) :=
        match parseDev cs6 with
        | some (d, r) => (some d, r)
        | none => (none, cs6)
      let (loc, cs8) :=
        match parseLocal cs7 with
        | some (l, r) => (some l, r)
        | none => (none, cs7)
      if cs8.isEmpty then
        some { epoch := epoch, release := r0 :: rs, pre := pre,
               post := post, dev := dev, localVer := loc }
      else none

/-- `packaging.version.parse`: `none` models `InvalidVersion` being
raised for a string the pattern rejects. -/
def parseVersion (s : String) : Option PEP440Version :=
  let cs := (trimWs s.data).map Char.toLower
  match cs with
  | 'v' :: rest => parseBody rest
  | _ => parseBody cs

/-! ### The `_compat` module

The module body is a straight-line sequence of five assignments.  Its
only input is `pd.__version__`; every `version.parse` call can raise,
and a raise anywhere aborts the module (no constant is produced), so
the body is a function from the installed version string to
`Option CompatModule`, the calls sequenced in source order. -/

/-- The five module-scope constants of `_compat.py`, the module's
entire observable surface. -/
structure CompatModule where
  PANDAS_CURRENT_SUPPORTED_VERSION : PEP440Version
  PANDAS_VERSION : PEP440Version
  PANDAS_GE_210 : Bool
  PANDAS_GE_220 : Bool
  PANDAS_LT_300 : Bool
deriving DecidableEq

/-- Evaluation of the module body on the installed version string, in
source order.  `PANDAS_VERSION >= version.parse("2.1.0")` is
`vle (parse "2.1.0") PANDAS_VERSION`, and
`PANDAS_VERSION < version.parse("3.0.0")` is
`vlt PANDAS_VERSION (parse "3.0.0")`. -/
def compatModule (pdVersionString : String) : Option CompatModule := do
  let supported ← parseVersion "2.2.3"
  let pv ← parseVersion pdVersionString
  let v210 ← parseVersion "2.1.0"
  let v220 ← parseVersion "2.2.0"
  let v300 ← parseVersion "3.0.0"
  pure { PANDAS_CURRENT_SUPPORTED_VERSION := supported
         PANDAS_VERSION := pv
         PANDAS_GE_210 := decide (vle v210 pv)
         PANDAS_GE_220 := decide (vle v220 pv)
         PANDAS_LT_300 := decide (vlt pv v300) }

/-- The parse of the literal `"2.2.3"`. -/
def v223val : PEP440Version :=
  { epoch := 0, release := [2, 2, 3], pre := none, post := none,
    dev := none, localVer := none }

/-- The parse of the literal `"2.1.0"`. -/
def v210val : PEP440Version :=
  { epoch := 0, release := [2, 1, 0], pre := none, post := none,
    dev := none, localVer := none }

/-- The parse of the literal `"2.2.0"`. -/
def v220val : PEP440Version :=
  { epoch := 0, release := [2, 2, 0], pre := none, post := none,
    dev := none, localVer := none }

/-- The parse of the literal `"3.0.0"`. -/
def v300val : PEP440Version :=
  { epoch := 0, release := [3, 0, 0], pre := none, post := none,
    dev := none, localVer := none }

theorem parse_223 : parseVersion "2.2.3" = some v223val := by decide

theorem parse_210 : parseVersion "2.1.0" = some v210val := by decide

theorem parse_220 : parseVersion "2.2.0" = some v220val := by decide

theorem parse_300 : parseVersion "3.0.0" = some v300val := by decide

/-- Closed form of the module body: all four literal parses succeed,
so the outcome depends only on parsing the installed version string. -/
theorem compatModule_eq (s : String) :
    compatModule s = (parseVersion s).map fun pv =>
      { PANDAS_CURRENT_SUPPORTED_VERSION := v223val
        PANDAS_VERSION := pv
        PANDAS_GE_210 := decide (vle v210val pv)
        PANDAS_GE_220 := decide (vle v220val pv)
        PANDAS_LT_300 := decide (vlt pv v300val) } := by
  cases h : parseVersion s <;>
    simp [compatModule, parse_223, parse_210, parse_220, parse_300, h]

/-- Destructor for a successful module evaluation: the produced
constants in terms of the parsed installed version. -/
theorem compatModule_some {s : String} {m : CompatModule}
    (h : compatModule s = some m) :
    ∃ pv, parseVersion s = some pv ∧
      m = { PANDAS_CURRENT_SUPPORTED_VERSION := v223val
            PANDAS_VERSION := pv
            PANDAS_GE_210 := decide (vle v210val pv)
            PANDAS_GE_220 := decide (vle v220val pv)
            PANDAS_LT_300 := decide (vlt pv v300val) } := by
  rw [compatModule_eq] at h
  cases hp : parseVersion s
  · rw [hp] at h
    exact absurd h (by simp)
  · rw [hp] at h
    injection h with h
    exact ⟨_, rfl, h.symm⟩

/-- C1: for every installed pandas version string that parses under
PEP 440, `PANDAS_VERSION` equals the parsed installed version,
`PANDAS_GE_210` is `True` iff that version is at least `2.1.0`, and
`PANDAS_GE_220` is `True` iff it is at least `2.2.0`, in the PEP 440
version order (not string order). -/
theorem C1_flags_match_version_order (s : String) (v : PEP440Version)
    (h : parseVersion s = some v) :
    ∃ m : CompatModule, compatModule s = some m ∧
      m.PANDAS_VERSION = v ∧
      (m.PANDAS_GE_210 = true ↔ vle v210val v) ∧
      (m.PANDAS_GE_220 = true ↔ vle v220val v) := by
  refine ⟨{ PANDAS_CURRENT_SUPPORTED_VERSION := v223val
            PANDAS_VERSION := v
            PANDAS_GE_210 := decide (vle v210val v)
            PANDAS_GE_220 := decide (vle v220val v)
            PANDAS_LT_300 := decide (vlt v v300val) }, ?_, rfl, ?_, ?_⟩
  · rw [compatModule_eq, h]
    rfl
  · exact ⟨of_decide_eq_true, decide_eq_true⟩
  · exact ⟨of_decide_eq_true, decide_eq_true⟩

theorem C1_witness :
    ∃ m : CompatModule, compatModule "2.2.3" = some m ∧
      m.PANDAS_VERSION = v223val ∧
      (m.PANDAS_GE_210 = true ↔ vle v210val v223val) ∧
      (m.PANDAS_GE_220 = true ↔ vle v220val v223val) :=
  C1_flags_match_version_order "2.2.3" v223val (by decide)

/-- C2 counterexample: the claim reads all three booleans, including
`PANDAS_LT_300`, as "installed version meets or exceeds the
threshold".  At installed version `"2.2.3"` the flag
`PANDAS_LT_300` is `True` while `2.2.3 >= 3.0.0` is false, so
`PANDAS_LT_300` is not a meets-or-exceeds flag for its threshold
`3.0.0`. -/
theorem C2_counterexample :
    ∃ m : CompatModule, compatModule "2.2.3" = some m ∧
      m.PANDAS_LT_300 = true ∧ ¬ vle v300val v223val :=
  ⟨{ PANDAS_CURRENT_SUPPORTED_VERSION := v223val, PANDAS_VERSION := v223val,
     PANDAS_GE_210 := true, PANDAS_GE_220 := true, PANDAS_LT_300 := true },
   by decide, rfl, by decide⟩

/-- C2 (amended): each version-comparison boolean compares the
installed version against its threshold with the comparison its name
states: `PANDAS_GE_210` and `PANDAS_GE_220` are `True` exactly when
the installed version is at least `2.1.0` resp. `2.2.0`, and
`PANDAS_LT_300` is `True` exactly when it is strictly below
`3.0.0`. -/
theorem C2_flags_compare_thresholds (s : String) (v : PEP440Version)
    (h : parseVersion s = some v) :
    ∃ m : CompatModule, compatModule s = some m ∧
      (m.PANDAS_GE_210 = true ↔ vle v210val v) ∧
      (m.PANDAS_GE_220 = true ↔ vle v220val v) ∧
      (m.PANDAS_LT_300 = true ↔ vlt v v300val) := by
  refine ⟨{ PANDAS_CURRENT_SUPPORTED_VERSION := v223val
            PANDAS_VERSION := v
            PANDAS_GE_210 := decide (vle v210val v)
            PANDAS_GE_220 := decide (vle v220val v)
            PANDAS_LT_300 := decide (vlt v v300val) }, ?_, ?_, ?_, ?_⟩
  · rw [compatModule_eq, h]
    rfl
  · exact ⟨of_decide_eq_true, decide_eq_true⟩
  · exact ⟨of_decide_eq_true, decide_eq_true⟩
  · exact ⟨of_decide_eq_true, decide_eq_true⟩

theorem C2_witness :
    ∃ m : CompatModule, compatModule "2.2.3" = some m ∧
      (m.PANDAS_GE_210 = true ↔ vle v210val v223val) ∧
      (m.PANDAS_GE_220 = true ↔ vle v220val v223val) ∧
      (m.PANDAS_LT_300 = true ↔ vlt v223val v300val) :=
  C2_flags_compare_thresholds "2.2.3" v223val (by decide)

/-- C3: `PANDAS_CURRENT_SUPPORTED_VERSION` is the parse of the
literal `"2.2.3"`, and its value is the same across any two
evaluations of the module, whatever the installed versions were. -/
theorem C3_supported_version_constant (s₁ s₂ : String) (m₁ m₂ : CompatModule)
    (h₁ : compatModule s₁ = some m₁) (h₂ : compatModule s₂ = some m₂) :
    m₁.PANDAS_CURRENT_SUPPORTED_VERSION = v223val ∧
    parseVersion "2.2.3" = some v223val ∧
    m₂.PANDAS_CURRENT_SUPPORTED_VERSION = m₁.PANDAS_CURRENT_SUPPORTED_VERSION := by
  obtain ⟨pv₁, -, rfl⟩ := compatModule_some h₁
  obtain ⟨pv₂, -, rfl⟩ := compatModule_some h₂
  exact ⟨rfl, parse_223, rfl⟩

theorem C3_witness :
    ∃ m₁ m₂ : CompatModule, compatModule "2.2.3" = some m₁ ∧
      compatModule "2.1.0" = some m₂ ∧
      m₁.PANDAS_CURRENT_SUPPORTED_VERSION = v223val ∧
      m₂.PANDAS_CURRENT_SUPPORTED_VERSION = m₁.PANDAS_CURRENT_SUPPORTED_VERSION := by
  refine ⟨⟨v223val, v223val, true, true, true⟩,
          ⟨v223val, v210val, true, false, true⟩, ?_, ?_, ?_, ?_⟩
  · decide
  · decide
  · exact (C3_supported_version_constant "2.2.3" "2.1.0"
      ⟨v223val, v223val, true, true, true⟩ ⟨v223val, v210val, true, false, true⟩
      (by decide) (by decide)).1
  · exact (C3_supported_version_constant "2.2.3" "2.1.0"
      ⟨v223val, v223val, true, true, true⟩ ⟨v223val, v210val, true, false, true⟩
      (by decide) (by decide)).2.2

/-- C4: when parsing the installed version string fails, the failure
propagates and the module produces no constants; when it succeeds,
the module is produced without error.  There is no recovery branch. -/
theorem C4_parse_failure_propagates (s : String) :
    (parseVersion s = none → compatModule s = none) ∧
    (∀ v, parseVersion s = some v → ∃ m, compatModule s = some m) := by
  constructor
  · intro h
    rw [compatModule_eq, h]
    rfl
  · intro v h
    rw [compatModule_eq, h]
    exact ⟨_, rfl⟩

theorem C4_witness :
    compatModule "not a version" = none ∧
    ∃ m, compatModule "2.2.3" = some m :=
  ⟨(C4_parse_failure_propagates "not a version").1 (by decide),
   (C4_parse_failure_propagates "2.2.3").2 v223val (by decide)⟩

/-- C5: the flags are monotone in the version order: whenever
`PANDAS_GE_220` is `True`, so is `PANDAS_GE_210`, since
`2.1.0 <= 2.2.0` and the order is transitive. -/
theorem C5_ge220_implies_ge210 (s : String) (m : CompatModule)
    (h : compatModule s = some m) (h220 : m.PANDAS_GE_220 = true) :
    m.PANDAS_GE_210 = true := by
  obtain ⟨pv, -, rfl⟩ := compatModule_some h
  exact decide_eq_true (vle_trans (by decide : vle v210val v220val)
    (of_decide_eq_true h220))

theorem C5_witness :
    ({ PANDAS_CURRENT_SUPPORTED_VERSION := v223val, PANDAS_VERSION := v223val,
       PANDAS_GE_210 := true, PANDAS_GE_220 := true, PANDAS_LT_300 := true } :
      CompatModule).PANDAS_GE_210 = true :=
  C5_ge220_implies_ge210 "2.2.3" _ (by decide) rfl

/-- C6: the observable surface of the module is exactly the five
constants: a `CompatModule` is fully determined by
`PANDAS_CURRENT_SUPPORTED_VERSION`, `PANDAS_VERSION`,
`PANDAS_GE_210`, `PANDAS_GE_220` and `PANDAS_LT_300`; there is no
further observable component. -/
theorem C6_observable_surface (m₁ m₂ : CompatModule)
    (h₁ : m₁.PANDAS_CURRENT_SUPPORTED_VERSION = m₂.PANDAS_CURRENT_SUPPORTED_VERSION)
    (h₂ : m₁.PANDAS_VERSION = m₂.PANDAS_VERSION)
    (h₃ : m₁.PANDAS_GE_210 = m₂.PANDAS_GE_210)
    (h₄ : m₁.PANDAS_GE_220 = m₂.PANDAS_GE_220)
    (h₅ : m₁.PANDAS_LT_300 = m₂.PANDAS_LT_300) :
    m₁ = m₂ := by
  cases m₁
  cases m₂
  simp_all

theorem C6_witness :
    ({ PANDAS_CURRENT_SUPPORTED_VERSION := v223val, PANDAS_VERSION := v223val,
       PANDAS_GE_210 := true, PANDAS_GE_220 := true, PANDAS_LT_300 := true } :
      CompatModule) =
    { PANDAS_CURRENT_SUPPORTED_VERSION := v223val, PANDAS_VERSION := v223val,
      PANDAS_GE_210 := true, PANDAS_GE_220 := true, PANDAS_LT_300 := true } :=
  C6_observable_surface _ _ rfl rfl rfl rfl rfl

/-- The parse of `"3.0.0.dev0"`: a development pre-release of
`3.0.0`. -/
def vDev300 : PEP440Version :=
  { epoch := 0, release := [3, 0, 0], pre := none, post := none,
    dev := some 0, localVer := none }

/-- C7: for the installed development version `"3.0.0.dev0"`, PEP 440
places it strictly below the final `3.0.0`, so `PANDAS_LT_300` is
`True`; it is also above `2.2.0`, so `PANDAS_GE_220` is `True`. -/
theorem C7_prerelease_edge_case :
    parseVersion "3.0.0.dev0" = some vDev300 ∧
    vlt vDev300 v300val ∧
    ∃ m : CompatModule, compatModule "3.0.0.dev0" = some m ∧
      m.PANDAS_LT_300 = true ∧ m.PANDAS_GE_220 = true := by
  refine ⟨by decide, by decide,
    { PANDAS_CURRENT_SUPPORTED_VERSION := v223val, PANDAS_VERSION := vDev300,
      PANDAS_GE_210 := true, PANDAS_GE_220 := true, PANDAS_LT_300 := true },
    by decide, rfl, rfl⟩

/-- C8: the module's constants are a pure function of the installed
version string: two evaluations with the same `pd.__version__` yield
the same constants. -/
theorem C8_deterministic (s₁ s₂ : String) (h : s₁ = s₂) :
    compatModule s₁ = compatModule s₂ := by
  rw [h]

theorem C8_witness : compatModule "2.2.3" = compatModule "2.2.3" :=
  C8_deterministic "2.2.3" "2.2.3" rfl

/-- C9: if the installed version equals
`PANDAS_CURRENT_SUPPORTED_VERSION` (2.2.3), all three flags are
`True`: the most recently validated version lies inside every gated
range. -/
theorem C9_supported_version_in_ranges (s : String) (m : CompatModule)
    (h : compatModule s = some m)
    (heq : m.PANDAS_VERSION = m.PANDAS_CURRENT_SUPPORTED_VERSION) :
    m.PANDAS_GE_210 = true ∧ m.PANDAS_GE_220 = true ∧ m.PANDAS_LT_300 = true := by
  obtain ⟨pv, -, rfl⟩ := compatModule_some h
  have hpv : pv = v223val := heq
  subst hpv
  exact ⟨by decide, by decide, by decide⟩

theorem C9_witness :
    ({ PANDAS_CURRENT_SUPPORTED_VERSION := v223val, PANDAS_VERSION := v223val,
       PANDAS_GE_210 := true, PANDAS_GE_220 := true, PANDAS_LT_300 := true } :
      CompatModule).PANDAS_GE_210 = true ∧
    ({ PANDAS_CURRENT_SUPPORTED_VERSION := v223val, PANDAS_VERSION := v223val,
       PANDAS_GE_210 := true, PANDAS_GE_220 := true, PANDAS_LT_300 := true } :
      CompatModule).PANDAS_GE_220 = true ∧
    ({ PANDAS_CURRENT_SUPPORTED_VERSION := v223val, PANDAS_VERSION := v223val,
       PANDAS_GE_210 := true, PANDAS_GE_220 := true, PANDAS_LT_300 := true } :
      CompatModule).PANDAS_LT_300 = true :=
  C9_supported_version_in_ranges "2.2.3" _ (by decide) rfl
